import Mathlib

/-!
Shallow embedding of the school-api service (Express + Sequelize CRUD app).

Sources embedded:
* the auth controller (register, login, getAllUsers) — no try/catch around
  persistence calls;
* the course controller (createCourse, getAllCourses, getCourseById,
  updateCourse, deleteCourse) — each body wrapped in try/catch returning
  500 with the error message;
* the teacher and student controllers, same five handlers each.

External collaborators (Express res, Sequelize ORM, bcryptjs, jsonwebtoken)
are modelled by their documented contracts: responses are a status plus a
JSON value, the ORM is a record of tables plus an optional failure that makes
every persistence call throw, bcrypt hashing and comparison are abstract
function parameters, and jwt.sign is a record of (payload, secret, expiresIn).
-/

namespace SchoolApi

/-! ## JavaScript query-string parsing

The handlers read pagination parameters with the idiom
`parseInt(req.query.x) || default`.  We model `parseInt` on an optional
string (`none` is an absent query parameter, i.e. `undefined`, for which
JS `parseInt` yields `NaN`): leading whitespace is skipped, an optional
sign is read, then the longest prefix of decimal digits; no digits means
`NaN`, here `none`.  (The rarely used hexadecimal `0x` form is not
modelled; no claim involves it.) -/

/-- Numeric value of the longest prefix of decimal digits; `none` if the
first character is not a digit. -/
def digitsValue : List Char → Option Nat
  | [] => none
  | c :: cs =>
    if c.isDigit then
      some ((c :: cs).takeWhile Char.isDigit |>.foldl
        (fun acc d => acc * 10 + (d.toNat - 48)) 0)
    else none

/-- JS `parseInt` after leading whitespace has been dropped: optional
sign, then decimal digits; `none` stands for `NaN`. -/
def parseIntCore : List Char → Option Int
  | '-' :: rest => (digitsValue rest).map (fun n => -(n : Int))
  | '+' :: rest => (digitsValue rest).map (fun n => (n : Int))
  | cs => (digitsValue cs).map (fun n => (n : Int))

/-- JS `parseInt` applied to an optional query-string parameter.
An absent parameter is `undefined`, and `parseInt(undefined)` is `NaN`. -/
def jsParseInt : Option String → Option Int
  | none => none
  | some s => parseIntCore (s.toList.dropWhile Char.isWhitespace)

/-- The JS idiom `v || d`: `parseInt` results `NaN` (here `none`) and `0`
are falsy and give the default; any other integer, including a negative
one, is kept. -/
def orDefault (v : Option Int) (d : Int) : Int :=
  match v with
  | none => d
  | some 0 => d
  | some v => v

/-- The `limit` actually used by a list handler:
`parseInt(req.query.limit) || 10`. -/
def usedLimit (limit : Option String) : Int :=
  orDefault (jsParseInt limit) 10

/-- The `page` actually used by a list handler:
`parseInt(req.query.page) || 1`. -/
def usedPage (page : Option String) : Int :=
  orDefault (jsParseInt page) 1

/-- JS `Math.ceil(total / limit)` in exact arithmetic, for a natural
`total` and a nonzero integer `limit` (the handlers never produce
`limit = 0`: the `|| 10` idiom replaces it; the value at `0` is a dummy). -/
def jsCeilDiv (total : Nat) (limit : Int) : Int :=
  if 0 < limit then ((total + limit.toNat - 1) / limit.toNat : Nat)
  else -((total / (-limit).toNat : Nat) : Int)

/-! ## JSON values and HTTP responses

Express `res.status(s).json(v)` is modelled as a `Response` carrying the
status and the JSON value; `res.json(v)` alone is status 200.  A signed
JSON web token appears in a response as an opaque `Json.tok` leaf standing
for the encoded string produced by the external jsonwebtoken library. -/

/-- Payload passed to `jwt.sign`: `{ id: user.id, email: user.email }`. -/
structure JwtPayload where
  id : Nat
  email : String
deriving Repr, DecidableEq

/-- Abstract model of the value of `jwt.sign(payload, secret, { expiresIn })`:
the external library signs `payload` with `secret`; `expiresIn` is a JS
duration string (the source always passes the one-hour duration). -/
structure SignedToken where
  payload : JwtPayload
  secret : String
  expiresIn : String
deriving Repr, DecidableEq

/-- JSON values, with an opaque leaf for an encoded signed token. -/
inductive Json where
  | null : Json
  | str : String → Json
  | num : Int → Json
  | arr : List Json → Json
  | obj : List (String × Json) → Json
  | tok : SignedToken → Json
deriving Repr

/-- Look a key up in a JSON object (first occurrence); `none` on
non-objects and missing keys. -/
def Json.get? : Json → String → Option Json
  | .obj fs, k => (fs.find? (fun p => p.1 == k)).map Prod.snd
  | _, _ => none

/-- An HTTP response: status code plus JSON body. -/
structure Response where
  status : Nat
  body : Json
deriving Repr

/-! ## Data model and persistence layer

One record type per table, mirroring the Sequelize models (an integer
primary key, the declared fields, and the automatic creation timestamp
where the handlers sort by it).  The persistence layer is the record of
tables plus an optional failure: when `fail` is set, every persistence
call throws that message, modelling an unexpected persistence-layer
exception during the handler's run. -/

structure User where
  id : Nat
  name : String
  email : String
  /-- The stored password field (a hash after registration). -/
  password : String
deriving Repr, DecidableEq

structure Course where
  id : Nat
  title : String
  description : String
  TeacherId : Nat
  createdAt : Nat
deriving Repr, DecidableEq

structure Teacher where
  id : Nat
  name : String
  department : String
  createdAt : Nat
deriving Repr, DecidableEq

structure Student where
  id : Nat
  name : String
  email : String
  createdAt : Nat
deriving Repr, DecidableEq

/-- The persistence layer: the tables (`enrollments` is the
Course–Student association table, pairs of (course id, student id)) and
an optional pending failure. -/
structure SchoolDb where
  users : List User
  teachers : List Teacher
  students : List Student
  courses : List Course
  enrollments : List (Nat × Nat)
  fail : Option String
deriving Repr

/-- Run one persistence call: throws the pending failure message when
one is set, otherwise computes over the tables. -/
def SchoolDb.run (db : SchoolDb) (f : SchoolDb → β) : Except String β :=
  match db.fail with
  | some msg => .error msg
  | none => .ok (f db)

/-- Fresh autoincrement primary key: one more than the largest id used. -/
def nextId (ids : List Nat) : Nat :=
  ids.foldr max 0 + 1

/-! ## Eager loading (`populate`)

Each handler turns the raw `populate` query parameter into the
`includeOptions` array: when the parameter is present and truthy (a
nonempty string), it is split on commas, and each resource checks its
own fixed relation names with `Array.includes`, an exact string
comparison.  Unrecognized values contribute nothing. -/

/-- Split a character list at every comma (a trailing comma yields a
final empty piece, and the empty list is one empty piece, exactly as in
JS `String.prototype.split`). -/
def splitCommaChars : List Char → List (List Char)
  | [] => [[]]
  | c :: rest =>
    let r := splitCommaChars rest
    if c = ',' then [] :: r
    else
      match r with
      | [] => [[c]]
      | h :: t => (c :: h) :: t

/-- JS `populate.split(',')`. -/
def jsSplitComma (s : String) : List String :=
  (splitCommaChars s.toList).map (fun l => String.mk l)

/-- JS `String.prototype.toLowerCase` (character-wise; the handler only
applies it to the strings `ASC` and `DESC`). -/
def jsToLowerCase (s : String) : String :=
  String.mk (s.toList.map Char.toLower)

/-- Relations a Course list/get can include: `db.Teacher`, `db.Student`. -/
inductive CourseRel where
  | teacher : CourseRel
  | student : CourseRel
deriving Repr, DecidableEq, BEq

/-- Relations a Teacher list/get can include: `db.Course`. -/
inductive TeacherRel where
  | courses : TeacherRel
deriving Repr, DecidableEq, BEq

/-- Relations a Student list/get can include: `db.Course`. -/
inductive StudentRel where
  | courses : StudentRel
deriving Repr, DecidableEq, BEq

/-- `includeOptions` of the course handlers: push `db.Teacher` when the
comma-split values include the exact string `teacher`, then `db.Student`
for `student`. -/
def courseIncludes (populate : Option String) : List CourseRel :=
  match populate with
  | none => []
  | some p =>
    if p = "" then []
    else
      let populateArray := jsSplitComma p
      (if populateArray.contains ("teacher") then [CourseRel.teacher] else []) ++
      (if populateArray.contains ("student") then [CourseRel.student] else [])

/-- `includeOptions` of the teacher handlers: push `db.Course` when the
comma-split values include the exact string `courses`. -/
def teacherIncludes (populate : Option String) : List TeacherRel :=
  match populate with
  | none => []
  | some p =>
    if p = "" then []
    else
      let populateArray := jsSplitComma p
      if populateArray.contains ("courses") then [TeacherRel.courses] else []

/-- `includeOptions` of the student handlers: push `db.Course` when the
comma-split values include the exact string `courses`. -/
def studentIncludes (populate : Option String) : List StudentRel :=
  match populate with
  | none => []
  | some p =>
    if p = "" then []
    else
      let populateArray := jsSplitComma p
      if populateArray.contains ("courses") then [StudentRel.courses] else []

/-! ## Serialization

`res.json` on a Sequelize instance serializes the record's attributes;
when relations were eagerly loaded, Sequelize nests them under the
related model's name (`Teacher`, and the plural `Students` / `Courses`
for the to-many associations). -/

/-- A user as returned by `getAllUsers`, restricted to the requested
attributes `id`, `name`, `email`. -/
def userAttributesJson (u : User) : Json :=
  .obj [("id", .num (u.id : Int)), ("name", .str u.name),
        ("email", .str u.email)]

/-- A teacher's own attributes. -/
def teacherBaseJson (t : Teacher) : Json :=
  .obj [("id", .num (t.id : Int)), ("name", .str t.name),
        ("department", .str t.department),
        ("createdAt", .num (t.createdAt : Int))]

/-- A student's own attributes. -/
def studentBaseJson (s : Student) : Json :=
  .obj [("id", .num (s.id : Int)), ("name", .str s.name),
        ("email", .str s.email), ("createdAt", .num (s.createdAt : Int))]

/-- A course's own attributes. -/
def courseBaseFields (c : Course) : List (String × Json) :=
  [("id", .num (c.id : Int)), ("title", .str c.title),
   ("description", .str c.description),
   ("TeacherId", .num (c.TeacherId : Int)),
   ("createdAt", .num (c.createdAt : Int))]

/-- A course serialized with its eagerly loaded relations: the owning
teacher under `Teacher` (or `null` when the foreign key dangles) and the
enrolled students under `Students`. -/
def courseToJson (db : SchoolDb) (incs : List CourseRel) (c : Course) : Json :=
  .obj (courseBaseFields c ++
    (if incs.contains CourseRel.teacher then
      [("Teacher",
        match db.teachers.find? (fun t => t.id == c.TeacherId) with
        | some t => teacherBaseJson t
        | none => .null)]
     else []) ++
    (if incs.contains CourseRel.student then
      [("Students", .arr ((db.students.filter
          (fun s => db.enrollments.contains (c.id, s.id))).map studentBaseJson))]
     else []))

/-- A teacher serialized with the owned courses under `Courses` when
eagerly loaded. -/
def teacherToJson (db : SchoolDb) (incs : List TeacherRel) (t : Teacher) : Json :=
  match teacherBaseJson t with
  | .obj base =>
    .obj (base ++
      (if incs.contains TeacherRel.courses then
        [("Courses", .arr ((db.courses.filter
            (fun c => c.TeacherId == t.id)).map (fun c => .obj (courseBaseFields c))))]
       else []))
  | j => j

/-- A student serialized with the associated courses under `Courses`
when eagerly loaded. -/
def studentToJson (db : SchoolDb) (incs : List StudentRel) (s : Student) : Json :=
  match studentBaseJson s with
  | .obj base =>
    .obj (base ++
      (if incs.contains StudentRel.courses then
        [("Courses", .arr ((db.courses.filter
            (fun c => db.enrollments.contains (c.id, s.id))).map
            (fun c => .obj (courseBaseFields c))))]
       else []))
  | j => j

/-! ## The ORM list query

`findAll({ limit, offset, order: [['createdAt', sort]] })`: the table
sorted by the creation timestamp in the given direction, then `offset`
rows skipped and at most `limit` rows returned.  Negative `limit` or
`offset` is a backend SQL error and is not modelled; the theorems about
list results restrict to the nonnegative range the defaults guarantee. -/

/-- The table ordered by `createdAt` in direction `sort`
(the handler passes the string `ASC` or `DESC`). -/
def ormSorted (created : α → Nat) (sort : String) (rows : List α) : List α :=
  if sort = "ASC" then
    rows.insertionSort (fun a b => created a ≤ created b)
  else
    rows.insertionSort (fun a b => created b ≤ created a)

/-- `findAll` with limit/offset over the sorted table. -/
def ormFindAll (created : α → Nat) (sort : String) (limit offset : Int)
    (rows : List α) : List α :=
  ((ormSorted created sort rows).drop offset.toNat).take limit.toNat

/-! ## Auth controller

`register`, `login` and `getAllUsers` run their persistence calls with
no try/catch: a persistence exception escapes the handler, which is an
`Except.error` result here.  The bcryptjs operations are abstract
function parameters (`hash` for `bcrypt.hash(·, 10)`, `compare` for
`bcrypt.compare`), and the signing secret is
`process.env.JWT_SECRET || 'virak123'`. -/

/-- Body of `POST /auth/register`. -/
structure RegisterBody where
  name : String
  email : String
  password : String
deriving Repr

/-- Body of `POST /auth/login`. -/
structure LoginBody where
  email : String
  password : String
deriving Repr

/-- The module-level signing secret `process.env.JWT_SECRET || 'virak123'`
(an unset variable is `undefined`, and an empty string is falsy). -/
def SELECT (env : Option String) : String :=
  match env with
  | none => "virak123"
  | some s => if s = "" then "virak123" else s

/-- Abstract model of `jwt.sign(payload, secret, { expiresIn: '1h' })`. -/
def jwtSign (payload : JwtPayload) (secret : String) (expiresIn : String) :
    SignedToken :=
  { payload := payload, secret := secret, expiresIn := expiresIn }

/-- `register` handler.  No try/catch: a persistence failure escapes as
`Except.error`.  Returns the response together with the users table
after the call. -/
def register (hash : String → String) (db : SchoolDb) (b : RegisterBody) :
    Except String (Response × List User) := do
  let exists_ ← db.run (fun d => d.users.find? (fun u => u.email == b.email))
  match exists_ with
  | some _ =>
    pure ({ status := 400,
            body := .obj [("message", .str ("Email already exists"))] },
          db.users)
  | none =>
    let hashedPassword := hash b.password
    let user ← db.run (fun d =>
      ({ id := nextId (d.users.map User.id), name := b.name,
         email := b.email, password := hashedPassword } : User))
    pure ({ status := 201,
            body := .obj [
              ("message", .str ("User registered successfully")),
              ("user", .obj [("id", .num (user.id : Int)),
                             ("email", .str user.email)])] },
          db.users ++ [user])

/-- `login` handler.  No try/catch: a persistence failure escapes as
`Except.error`. -/
def login (compare : String → String → Bool) (env : Option String)
    (db : SchoolDb) (b : LoginBody) : Except String Response := do
  let user ← db.run (fun d => d.users.find? (fun u => u.email == b.email))
  match user with
  | none =>
    pure { status := 404, body := .obj [("message", .str ("User not found"))] }
  | some user =>
    let validPassword := compare b.password user.password
    if validPassword then
      let token := jwtSign { id := user.id, email := user.email }
        (SELECT env) ("1h")
      pure { status := 200,
             body := .obj [("token", .tok token),
               ("user", .obj [("id", .num (user.id : Int)),
                              ("email", .str user.email)])] }
    else
      pure { status := 401,
             body := .obj [("message", .str ("Invalid credentials"))] }

/-- `getAllUsers` handler: all users restricted to attributes
`id`, `name`, `email`.  No try/catch. -/
def getAllUsers (db : SchoolDb) : Except String Response := do
  let users ← db.run (fun d => d.users)
  pure { status := 200, body := .arr (users.map userAttributesJson) }

/-! ## CRUD controllers

Every handler body is wrapped in try/catch, a caught exception becoming
status 500 with the error message under the `error` key.  Mutating
handlers also return the persistence state after the call (unchanged
when the handler fails or rejects the request). -/

/-- The catch branch shared by all CRUD handlers, for read-only
handlers: `res.status(500).json({ error: err.message })`. -/
def catch500 (act : Except String Response) : Response :=
  match act with
  | .ok r => r
  | .error msg => { status := 500, body := .obj [("error", .str msg)] }

/-- The catch branch for mutating handlers: the 500 response, with the
persistence state left as it was. -/
def catch500M (db : SchoolDb) (act : Except String (Response × SchoolDb)) :
    Response × SchoolDb :=
  match act with
  | .ok r => r
  | .error msg =>
    ({ status := 500, body := .obj [("error", .str msg)] }, db)

/-- The raw query parameters of a list request. -/
structure ListQuery where
  page : Option String
  limit : Option String
  sort : Option String
  populate : Option String
deriving Repr

/-- The normalized sort direction string:
`req.query.sort === 'asc' ? 'ASC' : 'DESC'`. -/
def usedSort (sort : Option String) : String :=
  if sort = some ("asc") then "ASC" else "DESC"

/-- Body of `POST /courses` (fields per the route schema). -/
structure CourseBody where
  title : String
  description : String
  TeacherId : Nat
deriving Repr

/-- Body of `PUT /courses/:id`: any subset of the course fields. -/
structure CoursePatch where
  title : Option String
  description : Option String
  TeacherId : Option Nat
deriving Repr

/-- Sequelize `course.update(body)`: fields present in the body are set,
absent fields keep their stored value. -/
def applyCoursePatch (c : Course) (p : CoursePatch) : Course :=
  { c with
    title := p.title.getD c.title,
    description := p.description.getD c.description,
    TeacherId := p.TeacherId.getD c.TeacherId }

/-- `createCourse`: persist the body verbatim (`now` is the creation
timestamp the ORM assigns), 201 with the created record. -/
def createCourse (now : Nat) (db : SchoolDb) (b : CourseBody) :
    Response × SchoolDb :=
  catch500M db (do
    let course ← db.run (fun d =>
      ({ id := nextId (d.courses.map Course.id), title := b.title,
         description := b.description, TeacherId := b.TeacherId,
         createdAt := now } : Course))
    pure ({ status := 201, body := courseToJson db [] course },
          { db with courses := db.courses ++ [course] }))

/-- `getAllCourses`: pagination, sorting, eager loading, count, fetch,
and the `{ meta, data }` envelope. -/
def getAllCourses (db : SchoolDb) (q : ListQuery) : Response :=
  catch500 (do
    let limit := usedLimit q.limit
    let page := usedPage q.page
    let offset := (page - 1) * limit
    let sort := usedSort q.sort
    let includeOptions := courseIncludes q.populate
    let total ← db.run (fun d => d.courses.length)
    let courses ← db.run (fun d =>
      ormFindAll Course.createdAt sort limit offset d.courses)
    pure { status := 200, body := .obj [
      ("meta", .obj [
        ("totalItems", .num (total : Int)),
        ("page", .num page),
        ("totalPages", .num (jsCeilDiv total limit)),
        ("limit", .num limit),
        ("sort", .str (jsToLowerCase sort))]),
      ("data", .arr (courses.map (courseToJson db includeOptions)))] })

/-- `getCourseById`: eager loading, fetch by primary key, 404 when
absent.  The 404 body's key is misspelled `messsage` in the source; the
model preserves the misspelling. -/
def getCourseById (db : SchoolDb) (id : Nat) (populate : Option String) :
    Response :=
  catch500 (do
    let includeOptions := courseIncludes populate
    let course ← db.run (fun d => d.courses.find? (fun c => c.id == id))
    match course with
    | none =>
      pure { status := 404, body := .obj [("messsage", .str ("Not found"))] }
    | some c =>
      pure { status := 200, body := courseToJson db includeOptions c })

/-- `updateCourse`: fetch by primary key, 404 when absent, otherwise a
partial field merge persisted to the row, 200 with the updated record. -/
def updateCourse (db : SchoolDb) (id : Nat) (b : CoursePatch) :
    Response × SchoolDb :=
  catch500M db (do
    let course ← db.run (fun d => d.courses.find? (fun c => c.id == id))
    match course with
    | none =>
      pure ({ status := 404, body := .obj [("message", .str ("Not found"))] },
            db)
    | some c =>
      let c2 := applyCoursePatch c b
      pure ({ status := 200, body := courseToJson db [] c2 },
            { db with courses :=
                db.courses.map (fun r => if r.id == id then c2 else r) }))

/-- `deleteCourse`: fetch by primary key, 404 when absent, otherwise
remove the row and confirm. -/
def deleteCourse (db : SchoolDb) (id : Nat) : Response × SchoolDb :=
  catch500M db (do
    let course ← db.run (fun d => d.courses.find? (fun c => c.id == id))
    match course with
    | none =>
      pure ({ status := 404, body := .obj [("message", .str ("Not found"))] },
            db)
    | some _ =>
      pure ({ status := 200, body := .obj [("message", .str ("Deleted"))] },
            { db with courses := db.courses.filter (fun r => ¬ r.id == id) }))

/-- Body of `POST /teachers`. -/
structure TeacherBody where
  name : String
  department : String
deriving Repr

/-- Body of `PUT /teachers/:id`: any subset of the teacher fields. -/
structure TeacherPatch where
  name : Option String
  department : Option String
deriving Repr

/-- Sequelize `teacher.update(body)`. -/
def applyTeacherPatch (t : Teacher) (p : TeacherPatch) : Teacher :=
  { t with
    name := p.name.getD t.name,
    department := p.department.getD t.department }

/-- `createTeacher`. -/
def createTeacher (now : Nat) (db : SchoolDb) (b : TeacherBody) :
    Response × SchoolDb :=
  catch500M db (do
    let teacher ← db.run (fun d =>
      ({ id := nextId (d.teachers.map Teacher.id), name := b.name,
         department := b.department, createdAt := now } : Teacher))
    pure ({ status := 201, body := teacherToJson db [] teacher },
          { db with teachers := db.teachers ++ [teacher] }))

/-- `getAllTeachers`. -/
def getAllTeachers (db : SchoolDb) (q : ListQuery) : Response :=
  catch500 (do
    let limit := usedLimit q.limit
    let page := usedPage q.page
    let offset := (page - 1) * limit
    let sort := usedSort q.sort
    let includeOptions := teacherIncludes q.populate
    let total ← db.run (fun d => d.teachers.length)
    let teachers ← db.run (fun d =>
      ormFindAll Teacher.createdAt sort limit offset d.teachers)
    pure { status := 200, body := .obj [
      ("meta", .obj [
        ("totalItems", .num (total : Int)),
        ("page", .num page),
        ("totalPages", .num (jsCeilDiv total limit)),
        ("limit", .num limit),
        ("sort", .str (jsToLowerCase sort))]),
      ("data", .arr (teachers.map (teacherToJson db includeOptions)))] })

/-- `getTeacherById`. -/
def getTeacherById (db : SchoolDb) (id : Nat) (populate : Option String) :
    Response :=
  catch500 (do
    let includeOptions := teacherIncludes populate
    let teacher ← db.run (fun d => d.teachers.find? (fun t => t.id == id))
    match teacher with
    | none =>
      pure { status := 404, body := .obj [("message", .str ("Not found"))] }
    | some t =>
      pure { status := 200, body := teacherToJson db includeOptions t })

/-- `updateTeacher`. -/
def updateTeacher (db : SchoolDb) (id : Nat) (b : TeacherPatch) :
    Response × SchoolDb :=
  catch500M db (do
    let teacher ← db.run (fun d => d.teachers.find? (fun t => t.id == id))
    match teacher with
    | none =>
      pure ({ status := 404, body := .obj [("message", .str ("Not found"))] },
            db)
    | some t =>
      let t2 := applyTeacherPatch t b
      pure ({ status := 200, body := teacherToJson db [] t2 },
            { db with teachers :=
                db.teachers.map (fun r => if r.id == id then t2 else r) }))

/-- `deleteTeacher`. -/
def deleteTeacher (db : SchoolDb) (id : Nat) : Response × SchoolDb :=
  catch500M db (do
    let teacher ← db.run (fun d => d.teachers.find? (fun t => t.id == id))
    match teacher with
    | none =>
      pure ({ status := 404, body := .obj [("message", .str ("Not found"))] },
            db)
    | some _ =>
      pure ({ status := 200, body := .obj [("message", .str ("Deleted"))] },
            { db with teachers := db.teachers.filter (fun r => ¬ r.id == id) }))

/-- Body of `POST /students`. -/
structure StudentBody where
  name : String
  email : String
deriving Repr

/-- Body of `PUT /students/:id`: any subset of the student fields. -/
structure StudentPatch where
  name : Option String
  email : Option String
deriving Repr

/-- Sequelize `student.update(body)`. -/
def applyStudentPatch (s : Student) (p : StudentPatch) : Student :=
  { s with
    name := p.name.getD s.name,
    email := p.email.getD s.email }

/-- `createStudent`. -/
def createStudent (now : Nat) (db : SchoolDb) (b : StudentBody) :
    Response × SchoolDb :=
  catch500M db (do
    let student ← db.run (fun d =>
      ({ id := nextId (d.students.map Student.id), name := b.name,
         email := b.email, createdAt := now } : Student))
    pure ({ status := 201, body := studentToJson db [] student },
          { db with students := db.students ++ [student] }))

/-- `getAllStudents`. -/
def getAllStudents (db : SchoolDb) (q : ListQuery) : Response :=
  catch500 (do
    let limit := usedLimit q.limit
    let page := usedPage q.page
    let offset := (page - 1) * limit
    let sort := usedSort q.sort
    let includeOptions := studentIncludes q.populate
    let total ← db.run (fun d => d.students.length)
    let students ← db.run (fun d =>
      ormFindAll Student.createdAt sort limit offset d.students)
    pure { status := 200, body := .obj [
      ("meta", .obj [
        ("totalItems", .num (total : Int)),
        ("page", .num page),
        ("totalPages", .num (jsCeilDiv total limit)),
        ("limit", .num limit),
        ("sort", .str (jsToLowerCase sort))]),
      ("data", .arr (students.map (studentToJson db includeOptions)))] })

/-- `getStudentById`. -/
def getStudentById (db : SchoolDb) (id : Nat) (populate : Option String) :
    Response :=
  catch500 (do
    let includeOptions := studentIncludes populate
    let student ← db.run (fun d => d.students.find? (fun s => s.id == id))
    match student with
    | none =>
      pure { status := 404, body := .obj [("message", .str ("Not found"))] }
    | some s =>
      pure { status := 200, body := studentToJson db includeOptions s })

/-- `updateStudent`. -/
def updateStudent (db : SchoolDb) (id : Nat) (b : StudentPatch) :
    Response × SchoolDb :=
  catch500M db (do
    let student ← db.run (fun d => d.students.find? (fun s => s.id == id))
    match student with
    | none =>
      pure ({ status := 404, body := .obj [("message", .str ("Not found"))] },
            db)
    | some s =>
      let s2 := applyStudentPatch s b
      pure ({ status := 200, body := studentToJson db [] s2 },
            { db with students :=
                db.students.map (fun r => if r.id == id then s2 else r) }))

/-- `deleteStudent`. -/
def deleteStudent (db : SchoolDb) (id : Nat) : Response × SchoolDb :=
  catch500M db (do
    let student ← db.run (fun d => d.students.find? (fun s => s.id == id))
    match student with
    | none =>
      pure ({ status := 404, body := .obj [("message", .str ("Not found"))] },
            db)
    | some _ =>
      pure ({ status := 200, body := .obj [("message", .str ("Deleted"))] },
            { db with students := db.students.filter (fun r => ¬ r.id == id) }))

/-! ## Observation helpers and sample data

Spec-side observers for stating properties of list envelopes, and
concrete databases used to instantiate the theorems. -/

/-- The `data` array of a list envelope response. -/
def Response.dataArr (r : Response) : Option (List Json) :=
  match r.body.get? ("data") with
  | some (.arr xs) => some xs
  | _ => none

/-- One `meta` field of a list envelope response. -/
def Response.metaVal (r : Response) (k : String) : Option Json :=
  match r.body.get? ("meta") with
  | some m => m.get? k
  | _ => none

/-- The expected sortedness of a list in direction `sort`
(`ASC` ascending by creation timestamp, anything else descending). -/
def sortedByCreated (created : α → Nat) (sort : String) (l : List α) : Prop :=
  if sort = "ASC" then l.Sorted (fun a b => created a ≤ created b)
  else l.Sorted (fun a b => created b ≤ created a)

/-- A database with empty tables and no pending failure. -/
def dbEmpty : SchoolDb :=
  { users := [], teachers := [], students := [], courses := [],
    enrollments := [], fail := none }

/-- A database whose persistence layer throws on every call. -/
def dbFail : SchoolDb := { dbEmpty with fail := some ("boom") }

/-- A concrete stand-in for `bcrypt.hash(p, 10)` used to instantiate the
theorems (the format marker makes the output differ from any input it is
applied to below). -/
def hash0 (p : String) : String := ("$2b$10$") ++ p

/-- A concrete stand-in for `bcrypt.compare` matching `hash0`. -/
def compare0 (p stored : String) : Bool := hash0 p == stored

/-- A registered user whose stored password is `hash0` of the plaintext. -/
def user1 : User :=
  { id := 1, name := "Virak", email := "virak@gmail.com",
    password := hash0 ("name@123") }

def teacher1 : Teacher :=
  { id := 1, name := "T One", department := "Math", createdAt := 5 }

def teacher2 : Teacher :=
  { id := 2, name := "T Two", department := "Phys", createdAt := 9 }

def teacher3 : Teacher :=
  { id := 3, name := "T Three", department := "Chem", createdAt := 1 }

def course1 : Course :=
  { id := 1, title := "Algebra", description := "intro", TeacherId := 1,
    createdAt := 4 }

def course2 : Course :=
  { id := 2, title := "Optics", description := "waves", TeacherId := 2,
    createdAt := 6 }

def student1 : Student :=
  { id := 1, name := "Ana", email := "ana@x.com", createdAt := 2 }

/-- A populated database with no pending failure. -/
def dbA : SchoolDb :=
  { users := [user1], teachers := [teacher1, teacher2, teacher3],
    students := [student1], courses := [course1, course2],
    enrollments := [(1, 1)], fail := none }

/-! ## Helper lemmas -/

theorem SchoolDb.run_ok (db : SchoolDb) (f : SchoolDb → β) (h : db.fail = none) :
    db.run f = .ok (f db) := by
  unfold SchoolDb.run
  rw [h]

theorem getAllCourses_eq (db : SchoolDb) (q : ListQuery) (h : db.fail = none) :
    getAllCourses db q =
      { status := 200, body := .obj [
        ("meta", .obj [
          ("totalItems", .num (db.courses.length : Int)),
          ("page", .num (usedPage q.page)),
          ("totalPages", .num (jsCeilDiv db.courses.length (usedLimit q.limit))),
          ("limit", .num (usedLimit q.limit)),
          ("sort", .str (jsToLowerCase (usedSort q.sort)))]),
        ("data", .arr ((ormFindAll Course.createdAt (usedSort q.sort)
            (usedLimit q.limit) ((usedPage q.page - 1) * usedLimit q.limit)
            db.courses).map (courseToJson db (courseIncludes q.populate))))] } := by
  simp [getAllCourses, SchoolDb.run_ok, h, catch500, Bind.bind, Except.bind,
    Pure.pure, Except.pure]

theorem getAllTeachers_eq (db : SchoolDb) (q : ListQuery) (h : db.fail = none) :
    getAllTeachers db q =
      { status := 200, body := .obj [
        ("meta", .obj [
          ("totalItems", .num (db.teachers.length : Int)),
          ("page", .num (usedPage q.page)),
          ("totalPages", .num (jsCeilDiv db.teachers.length (usedLimit q.limit))),
          ("limit", .num (usedLimit q.limit)),
          ("sort", .str (jsToLowerCase (usedSort q.sort)))]),
        ("data", .arr ((ormFindAll Teacher.createdAt (usedSort q.sort)
            (usedLimit q.limit) ((usedPage q.page - 1) * usedLimit q.limit)
            db.teachers).map (teacherToJson db (teacherIncludes q.populate))))] } := by
  simp [getAllTeachers, SchoolDb.run_ok, h, catch500, Bind.bind, Except.bind,
    Pure.pure, Except.pure]

theorem getAllStudents_eq (db : SchoolDb) (q : ListQuery) (h : db.fail = none) :
    getAllStudents db q =
      { status := 200, body := .obj [
        ("meta", .obj [
          ("totalItems", .num (db.students.length : Int)),
          ("page", .num (usedPage q.page)),
          ("totalPages", .num (jsCeilDiv db.students.length (usedLimit q.limit))),
          ("limit", .num (usedLimit q.limit)),
          ("sort", .str (jsToLowerCase (usedSort q.sort)))]),
        ("data", .arr ((ormFindAll Student.createdAt (usedSort q.sort)
            (usedLimit q.limit) ((usedPage q.page - 1) * usedLimit q.limit)
            db.students).map (studentToJson db (studentIncludes q.populate))))] } := by
  simp [getAllStudents, SchoolDb.run_ok, h, catch500, Bind.bind, Except.bind,
    Pure.pure, Except.pure]

/-! ## The claims -/

/-- C7 (code bug witness): the 404 branch of `getCourseById` responds with
the misspelled key `messsage`, so a non-2xx response whose body is required
to contain a `message` or an `error` key does not: at the concrete request
`GET /courses/1` against an empty store, the status is 404 and the body has
the key `messsage` but neither `message` nor `error`. -/
theorem getCourseById_missing_message_key :
    (getCourseById dbEmpty 1 none).status = 404 ∧
    (getCourseById dbEmpty 1 none).body.get? ("messsage") =
      some (.str ("Not found")) ∧
    (getCourseById dbEmpty 1 none).body.get? ("message") = none ∧
    (getCourseById dbEmpty 1 none).body.get? ("error") = none :=
  ⟨rfl, rfl, rfl, rfl⟩

/-- C2 counterexample: with the raw query parameter `limit=-5`,
`parseInt` yields `-5`, which is truthy, so the limit actually used is the
negative integer `-5` — not a positive integer and not the default 10 —
and the course list envelope reports that negative limit in its meta. -/
theorem negative_limit_counterexample :
    usedLimit (some ("-5")) = -5 ∧
    ¬ (0 < usedLimit (some ("-5"))) ∧
    usedLimit (some ("-5")) ≠ 10 ∧
    (getAllCourses dbEmpty
      { page := none, limit := some ("-5"), sort := none, populate := none
        }).metaVal ("limit") = some (.num (-5)) :=
  ⟨by decide, by decide, by decide, rfl⟩

/-- C2 (amended): when `page` or `limit` is absent or its `parseInt`
value is `NaN` or `0`, the defaults `page=1`, `limit=10` are used; any
other parsed integer — including a negative one — is used as-is, so the
values used need not be positive.  The list envelopes report exactly
these effective values. -/
theorem pagination_defaults (db : SchoolDb) (q : ListQuery) (v w : Int)
    (h : db.fail = none) :
    (jsParseInt q.limit = none → usedLimit q.limit = 10) ∧
    (jsParseInt q.limit = some 0 → usedLimit q.limit = 10) ∧
    (jsParseInt q.limit = some v → v ≠ 0 → usedLimit q.limit = v) ∧
    (jsParseInt q.page = none → usedPage q.page = 1) ∧
    (jsParseInt q.page = some 0 → usedPage q.page = 1) ∧
    (jsParseInt q.page = some w → w ≠ 0 → usedPage q.page = w) ∧
    (getAllCourses db q).metaVal ("limit") = some (.num (usedLimit q.limit)) ∧
    (getAllCourses db q).metaVal ("page") = some (.num (usedPage q.page)) ∧
    (getAllTeachers db q).metaVal ("limit") = some (.num (usedLimit q.limit)) ∧
    (getAllTeachers db q).metaVal ("page") = some (.num (usedPage q.page)) ∧
    (getAllStudents db q).metaVal ("limit") = some (.num (usedLimit q.limit)) ∧
    (getAllStudents db q).metaVal ("page") = some (.num (usedPage q.page)) := by
  refine ⟨?_, ?_, ?_, ?_, ?_, ?_, ?_, ?_, ?_, ?_, ?_, ?_⟩
  · intro hp
    simp [usedLimit, orDefault, hp]
  · intro hp
    simp [usedLimit, orDefault, hp]
  · intro hp hv
    simp [usedLimit, orDefault, hp, hv]
  · intro hp
    simp [usedPage, orDefault, hp]
  · intro hp
    simp [usedPage, orDefault, hp]
  · intro hp hw
    simp [usedPage, orDefault, hp, hw]
  · rw [getAllCourses_eq db q h]
    rfl
  · rw [getAllCourses_eq db q h]
    rfl
  · rw [getAllTeachers_eq db q h]
    rfl
  · rw [getAllTeachers_eq db q h]
    rfl
  · rw [getAllStudents_eq db q h]
    rfl
  · rw [getAllStudents_eq db q h]
    rfl

/-- Closed instance of `pagination_defaults` at a concrete request
(`page=0`, `limit` absent) against the populated database. -/
theorem pagination_defaults_witness :
    (getAllTeachers dbA
      { page := some ("0"), limit := none, sort := none, populate := none
        }).metaVal ("limit") = some (.num 10) ∧
    (getAllTeachers dbA
      { page := some ("0"), limit := none, sort := none, populate := none
        }).metaVal ("page") = some (.num 1) := by
  have h := pagination_defaults dbA
    { page := some ("0"), limit := none, sort := none, populate := none }
    5 7 rfl
  exact ⟨h.2.2.2.2.2.2.2.2.1, h.2.2.2.2.2.2.2.2.2.1⟩

/-- C10: relation names in `populate` are matched by exact, case-sensitive
string comparison: any single value that is not exactly one of the
lower-case names `teacher` / `student` / `courses` (so in particular any
case variant of them) triggers no eager loading, while the exact
spellings do. -/
theorem populate_case_sensitive (v : String) (hv : jsSplitComma v = [v]) :
    (v ≠ ("teacher") → v ≠ ("student") → courseIncludes (some v) = []) ∧
    (v ≠ ("courses") → teacherIncludes (some v) = []) ∧
    (v ≠ ("courses") → studentIncludes (some v) = []) ∧
    courseIncludes (some ("teacher")) = [CourseRel.teacher] ∧
    courseIncludes (some ("student")) = [CourseRel.student] ∧
    courseIncludes (some ("teacher,student")) =
      [CourseRel.teacher, CourseRel.student] ∧
    teacherIncludes (some ("courses")) = [TeacherRel.courses] ∧
    studentIncludes (some ("courses")) = [StudentRel.courses] := by
  refine ⟨?_, ?_, ?_, by decide, by decide, by decide, by decide, by decide⟩
  · intro h1 h2
    by_cases he : v = ""
    · simp [courseIncludes, he]
    · simp [courseIncludes, he, hv, List.contains]
      exact ⟨fun hh => h1 hh.symm, fun hh => h2 hh.symm⟩
  · intro h1
    by_cases he : v = ""
    · simp [teacherIncludes, he]
    · simp [teacherIncludes, he, hv, List.contains]
      exact fun hh => h1 hh.symm
  · intro h1
    by_cases he : v = ""
    · simp [studentIncludes, he]
    · simp [studentIncludes, he, hv, List.contains]
      exact fun hh => h1 hh.symm

/-- Closed instance of `populate_case_sensitive`: the case variants
`Teacher` and `COURSES` trigger no eager loading. -/
theorem populate_case_sensitive_witness :
    courseIncludes (some ("Teacher")) = [] ∧
    teacherIncludes (some ("COURSES")) = [] :=
  ⟨(populate_case_sensitive ("Teacher") (by decide)).1 (by decide) (by decide),
   (populate_case_sensitive ("COURSES") (by decide)).2.1 (by decide)⟩

theorem courseIncludes_none : courseIncludes none = [] := rfl

theorem teacherIncludes_none : teacherIncludes none = [] := rfl

theorem studentIncludes_none : studentIncludes none = [] := rfl

/-- C9: values of `populate` trigger eager loading only on an exact
whitelist match; when every comma-separated value is unrecognized, each
list and getById handler behaves exactly as with no `populate` at all —
the included relations are empty, the response carries no related data,
and the list requests still succeed with status 200. -/
theorem populate_whitelist (db : SchoolDb) (q : ListQuery) (p : String) (id : Nat)
    (h : db.fail = none)
    (hq : q.populate = some p)
    (hpage : 1 ≤ usedPage q.page) (hlim : 1 ≤ usedLimit q.limit)
    (ht : (jsSplitComma p).contains ("teacher") = false)
    (hs : (jsSplitComma p).contains ("student") = false)
    (hc : (jsSplitComma p).contains ("courses") = false) :
    courseIncludes (some p) = [] ∧
    teacherIncludes (some p) = [] ∧
    studentIncludes (some p) = [] ∧
    getAllCourses db q = getAllCourses db { q with populate := none } ∧
    (getAllCourses db q).status = 200 ∧
    getAllTeachers db q = getAllTeachers db { q with populate := none } ∧
    (getAllTeachers db q).status = 200 ∧
    getAllStudents db q = getAllStudents db { q with populate := none } ∧
    (getAllStudents db q).status = 200 ∧
    getCourseById db id (some p) = getCourseById db id none ∧
    getTeacherById db id (some p) = getTeacherById db id none ∧
    getStudentById db id (some p) = getStudentById db id none := by
  have ht2 : ("teacher") ∉ jsSplitComma p := by simpa using ht
  have hs2 : ("student") ∉ jsSplitComma p := by simpa using hs
  have hc2 : ("courses") ∉ jsSplitComma p := by simpa using hc
  have hci : courseIncludes (some p) = [] := by
    by_cases he : p = ""
    · simp [courseIncludes, he]
    · simp [courseIncludes, he, ht2, hs2]
  have hti : teacherIncludes (some p) = [] := by
    by_cases he : p = ""
    · simp [teacherIncludes, he]
    · simp [teacherIncludes, he, hc2]
  have hsi : studentIncludes (some p) = [] := by
    by_cases he : p = ""
    · simp [studentIncludes, he]
    · simp [studentIncludes, he, hc2]
  refine ⟨hci, hti, hsi, ?_, ?_, ?_, ?_, ?_, ?_, ?_, ?_, ?_⟩
  · rw [getAllCourses_eq db q h, getAllCourses_eq db { q with populate := none } h,
      hq, hci]
    rfl
  · rw [getAllCourses_eq db q h]
  · rw [getAllTeachers_eq db q h, getAllTeachers_eq db { q with populate := none } h,
      hq, hti]
    rfl
  · rw [getAllTeachers_eq db q h]
  · rw [getAllStudents_eq db q h, getAllStudents_eq db { q with populate := none } h,
      hq, hsi]
    rfl
  · rw [getAllStudents_eq db q h]
  · simp only [getCourseById, hci, courseIncludes_none]
  · simp only [getTeacherById, hti, teacherIncludes_none]
  · simp only [getStudentById, hsi, studentIncludes_none]

/-- Closed instance of `populate_whitelist`: `populate=foo,bar` on the
course list against the populated database behaves as no populate and
returns 200. -/
theorem populate_whitelist_witness :
    getAllCourses dbA
      { page := none, limit := none, sort := none,
        populate := some ("foo,bar") } =
      getAllCourses dbA
        { page := none, limit := none, sort := none, populate := none } ∧
    (getAllCourses dbA
      { page := none, limit := none, sort := none,
        populate := some ("foo,bar") }).status = 200 := by
  have h := populate_whitelist dbA
    { page := none, limit := none, sort := none, populate := some ("foo,bar") }
    ("foo,bar") 1 rfl rfl (by decide) (by decide) (by decide) (by decide)
    (by decide)
  exact ⟨h.2.2.2.1, h.2.2.2.2.1⟩


/-- C5: `register` rejects a duplicate email with 400 and leaves the users
table unchanged; otherwise it appends exactly one user whose stored
password field is the bcrypt hash of the submitted password (hence, for a
one-way hash, never the plaintext), and the 201 body exposes only the new
user's id and email, never the stored hash. -/
theorem register_spec (hash : String → String) (db : SchoolDb) (b : RegisterBody)
    (h : db.fail = none) :
    ((db.users.find? (fun x => x.email == b.email)).isSome = true →
      register hash db b =
        .ok ({ status := 400,
               body := .obj [("message", .str ("Email already exists"))] },
             db.users)) ∧
    (db.users.find? (fun x => x.email == b.email) = none →
      register hash db b =
        .ok ({ status := 201,
               body := .obj [
                 ("message", .str ("User registered successfully")),
                 ("user", .obj [
                   ("id", .num ((nextId (db.users.map User.id)) : Int)),
                   ("email", .str b.email)])] },
             db.users ++ [{ id := nextId (db.users.map User.id), name := b.name,
                            email := b.email,
                            password := hash b.password }])) ∧
    (hash b.password ≠ b.password →
      ({ id := nextId (db.users.map User.id), name := b.name, email := b.email,
         password := hash b.password } : User).password ≠ b.password) := by
  refine ⟨?_, ?_, fun hone => hone⟩
  · intro hd
    obtain ⟨u, hu⟩ := Option.isSome_iff_exists.mp hd
    simp [register, SchoolDb.run_ok db _ h, hu, Bind.bind, Except.bind,
      Pure.pure, Except.pure]
  · intro hf
    simp [register, SchoolDb.run_ok db _ h, hf, Bind.bind, Except.bind,
      Pure.pure, Except.pure]

/-- Closed instance of `register_spec`: a duplicate registration against
the populated database yields 400 and an unchanged users table; a fresh
one yields 201 exposing only id and email, storing the hash, which
differs from the plaintext. -/
theorem register_spec_witness :
    register hash0 dbA
      { name := "B", email := "virak@gmail.com", password := "pw" } =
      .ok ({ status := 400,
             body := .obj [("message", .str ("Email already exists"))] },
           dbA.users) ∧
    register hash0 dbA { name := "B", email := "b@x.com", password := "pw" } =
      .ok ({ status := 201,
             body := .obj [
               ("message", .str ("User registered successfully")),
               ("user", .obj [("id", .num 2), ("email", .str ("b@x.com"))])] },
           dbA.users ++ [{ id := 2, name := "B", email := "b@x.com",
                           password := hash0 ("pw") }]) ∧
    hash0 ("pw") ≠ ("pw") := by
  refine ⟨?_, ?_, by decide⟩
  · exact (register_spec hash0 dbA
      { name := "B", email := "virak@gmail.com", password := "pw" } rfl).1
      (by decide)
  · exact (register_spec hash0 dbA
      { name := "B", email := "b@x.com", password := "pw" } rfl).2.1
      (by decide)

/-- C6: `login` responds 404 when no user has the email, 401 when the
password does not verify against the stored hash, and otherwise 200 with
a token signed with the process-wide secret (`JWT_SECRET` with fallback),
payload exactly the user's (id, email), expiry the jsonwebtoken duration
string for one hour, alongside the public identity {id, email}. -/
theorem login_spec (compare : String → String → Bool) (env : Option String)
    (db : SchoolDb) (b : LoginBody) (u : User) (h : db.fail = none) :
    (db.users.find? (fun x => x.email == b.email) = none →
      login compare env db b =
        .ok { status := 404,
              body := .obj [("message", .str ("User not found"))] }) ∧
    (db.users.find? (fun x => x.email == b.email) = some u →
      compare b.password u.password = false →
      login compare env db b =
        .ok { status := 401,
              body := .obj [("message", .str ("Invalid credentials"))] }) ∧
    (db.users.find? (fun x => x.email == b.email) = some u →
      compare b.password u.password = true →
      login compare env db b =
        .ok { status := 200,
              body := .obj [
                ("token", .tok { payload := { id := u.id, email := u.email },
                                 secret := SELECT env, expiresIn := ("1h") }),
                ("user", .obj [("id", .num (u.id : Int)),
                               ("email", .str u.email)])] }) := by
  refine ⟨?_, ?_, ?_⟩
  · intro hf
    simp [login, SchoolDb.run_ok db _ h, hf, Bind.bind, Except.bind,
      Pure.pure, Except.pure]
  · intro hu hcmp
    simp [login, SchoolDb.run_ok db _ h, hu, hcmp, Bind.bind, Except.bind,
      Pure.pure, Except.pure]
  · intro hu hcmp
    simp [login, SchoolDb.run_ok db _ h, hu, hcmp, jwtSign, Bind.bind,
      Except.bind, Pure.pure, Except.pure]

/-- Closed instance of `login_spec` against the populated database:
unknown email gives 404, wrong password 401, and correct credentials 200
with the signed token bound to (1, virak@gmail.com), the fallback secret
and the one-hour expiry. -/
theorem login_spec_witness :
    login compare0 none dbA { email := "zz@x.com", password := "pw" } =
      .ok { status := 404,
            body := .obj [("message", .str ("User not found"))] } ∧
    login compare0 none dbA { email := "virak@gmail.com", password := "wrong" } =
      .ok { status := 401,
            body := .obj [("message", .str ("Invalid credentials"))] } ∧
    login compare0 none dbA
      { email := "virak@gmail.com", password := "name@123" } =
      .ok { status := 200,
            body := .obj [
              ("token", .tok { payload := { id := 1, email := "virak@gmail.com" },
                               secret := ("virak123"), expiresIn := ("1h") }),
              ("user", .obj [("id", .num 1),
                             ("email", .str ("virak@gmail.com"))])] } := by
  refine ⟨?_, ?_, ?_⟩
  · exact (login_spec compare0 none dbA
      { email := "zz@x.com", password := "pw" } user1 rfl).1 (by decide)
  · exact (login_spec compare0 none dbA
      { email := "virak@gmail.com", password := "wrong" } user1 rfl).2.1
      (by decide) (by decide)
  · exact (login_spec compare0 none dbA
      { email := "virak@gmail.com", password := "name@123" } user1 rfl).2.2
      (by decide) (by decide)

/-- C1 counterexample: the auth handlers have no try/catch, so a
persistence exception is not caught at the handler's boundary and no 500
response is produced — against a store whose persistence layer throws
`boom`, `register`, `login` and `getAllUsers` all end in the uncaught
exception instead of a response. -/
theorem register_uncaught_counterexample :
    register hash0 dbFail { name := "A", email := "a@x.com", password := "pw" } =
      .error ("boom") ∧
    login compare0 none dbFail { email := "a@x.com", password := "pw" } =
      .error ("boom") ∧
    getAllUsers dbFail = .error ("boom") :=
  ⟨rfl, rfl, rfl⟩

/-- C1 (amended): every create/list/getById/update/delete handler of
Course, Teacher and Student catches a persistence-layer exception at its
own boundary and responds 500 with the underlying message under the
`error` key, leaving the store unchanged; the auth handlers (register,
login, list-users) have no such boundary and the exception escapes them
uncaught. -/
theorem handler_error_boundaries (db : SchoolDb) (q : ListQuery)
    (id now : Nat) (msg : String) (pop : Option String)
    (cb : CourseBody) (cp : CoursePatch) (tb : TeacherBody) (tpc : TeacherPatch)
    (sb : StudentBody) (spc : StudentPatch) (rb : RegisterBody) (lb : LoginBody)
    (hash : String → String) (compare : String → String → Bool)
    (env : Option String) (hf : db.fail = some msg) :
    createCourse now db cb =
      ({ status := 500, body := .obj [("error", .str msg)] }, db) ∧
    getAllCourses db q = { status := 500, body := .obj [("error", .str msg)] } ∧
    getCourseById db id pop =
      { status := 500, body := .obj [("error", .str msg)] } ∧
    updateCourse db id cp =
      ({ status := 500, body := .obj [("error", .str msg)] }, db) ∧
    deleteCourse db id =
      ({ status := 500, body := .obj [("error", .str msg)] }, db) ∧
    createTeacher now db tb =
      ({ status := 500, body := .obj [("error", .str msg)] }, db) ∧
    getAllTeachers db q = { status := 500, body := .obj [("error", .str msg)] } ∧
    getTeacherById db id pop =
      { status := 500, body := .obj [("error", .str msg)] } ∧
    updateTeacher db id tpc =
      ({ status := 500, body := .obj [("error", .str msg)] }, db) ∧
    deleteTeacher db id =
      ({ status := 500, body := .obj [("error", .str msg)] }, db) ∧
    createStudent now db sb =
      ({ status := 500, body := .obj [("error", .str msg)] }, db) ∧
    getAllStudents db q = { status := 500, body := .obj [("error", .str msg)] } ∧
    getStudentById db id pop =
      { status := 500, body := .obj [("error", .str msg)] } ∧
    updateStudent db id spc =
      ({ status := 500, body := .obj [("error", .str msg)] }, db) ∧
    deleteStudent db id =
      ({ status := 500, body := .obj [("error", .str msg)] }, db) ∧
    register hash db rb = .error msg ∧
    login compare env db lb = .error msg ∧
    getAllUsers db = .error msg := by
  refine ⟨?_, ?_, ?_, ?_, ?_, ?_, ?_, ?_, ?_, ?_, ?_, ?_, ?_, ?_, ?_, ?_, ?_, ?_⟩
  all_goals
    simp [createCourse, getAllCourses, getCourseById, updateCourse, deleteCourse,
      createTeacher, getAllTeachers, getTeacherById, updateTeacher, deleteTeacher,
      createStudent, getAllStudents, getStudentById, updateStudent, deleteStudent,
      register, login, getAllUsers, SchoolDb.run, hf, catch500, catch500M,
      Bind.bind, Except.bind, Pure.pure, Except.pure]

/-- Closed instance of `handler_error_boundaries` at the failing store:
a CRUD handler turns the thrown `boom` into a 500 response with the
message under `error`. -/
theorem handler_error_boundaries_witness :
    createTeacher 0 dbFail { name := "N", department := "D" } =
      ({ status := 500, body := .obj [("error", .str ("boom"))] }, dbFail) ∧
    getAllCourses dbFail
      { page := none, limit := none, sort := none, populate := none } =
      { status := 500, body := .obj [("error", .str ("boom"))] } := by
  have h := handler_error_boundaries dbFail
    { page := none, limit := none, sort := none, populate := none }
    1 0 ("boom") none
    { title := "t", description := "d", TeacherId := 1 }
    { title := none, description := none, TeacherId := none }
    { name := "N", department := "D" } { name := none, department := none }
    { name := "S", email := "s@x.com" } { name := none, email := none }
    { name := "A", email := "a@x.com", password := "pw" }
    { email := "a@x.com", password := "pw" } hash0 compare0 none rfl
  exact ⟨h.2.2.2.2.2.1, h.2.1⟩

/-- C8: `update` on Course, Teacher and Student fetches by primary key
and responds 404 with the store unchanged when absent; otherwise exactly
the fields present in the body are overwritten, every other field (and
every other row) keeps its previous value, and the response is 200 with
the updated record. -/
theorem update_partial_merge (db : SchoolDb) (id : Nat)
    (cp : CoursePatch) (tpc : TeacherPatch) (spc : StudentPatch)
    (c : Course) (t : Teacher) (s : Student) (v : String) (n : Nat)
    (h : db.fail = none) :
    (db.courses.find? (fun x => x.id == id) = none →
      updateCourse db id cp =
        ({ status := 404, body := .obj [("message", .str ("Not found"))] }, db)) ∧
    (db.teachers.find? (fun x => x.id == id) = none →
      updateTeacher db id tpc =
        ({ status := 404, body := .obj [("message", .str ("Not found"))] }, db)) ∧
    (db.students.find? (fun x => x.id == id) = none →
      updateStudent db id spc =
        ({ status := 404, body := .obj [("message", .str ("Not found"))] }, db)) ∧
    (db.courses.find? (fun x => x.id == id) = some c →
      updateCourse db id cp =
        ({ status := 200, body := courseToJson db [] (applyCoursePatch c cp) },
         { db with courses :=
             db.courses.map (fun r => if r.id == id then applyCoursePatch c cp else r) })) ∧
    (db.teachers.find? (fun x => x.id == id) = some t →
      updateTeacher db id tpc =
        ({ status := 200, body := teacherToJson db [] (applyTeacherPatch t tpc) },
         { db with teachers :=
             db.teachers.map (fun r => if r.id == id then applyTeacherPatch t tpc else r) })) ∧
    (db.students.find? (fun x => x.id == id) = some s →
      updateStudent db id spc =
        ({ status := 200, body := studentToJson db [] (applyStudentPatch s spc) },
         { db with students :=
             db.students.map (fun r => if r.id == id then applyStudentPatch s spc else r) })) ∧
    (cp.title = some v → (applyCoursePatch c cp).title = v) ∧
    (cp.title = none → (applyCoursePatch c cp).title = c.title) ∧
    (cp.description = some v → (applyCoursePatch c cp).description = v) ∧
    (cp.description = none → (applyCoursePatch c cp).description = c.description) ∧
    (cp.TeacherId = some n → (applyCoursePatch c cp).TeacherId = n) ∧
    (cp.TeacherId = none → (applyCoursePatch c cp).TeacherId = c.TeacherId) ∧
    (applyCoursePatch c cp).id = c.id ∧
    (applyCoursePatch c cp).createdAt = c.createdAt ∧
    (tpc.name = some v → (applyTeacherPatch t tpc).name = v) ∧
    (tpc.name = none → (applyTeacherPatch t tpc).name = t.name) ∧
    (tpc.department = some v → (applyTeacherPatch t tpc).department = v) ∧
    (tpc.department = none →
      (applyTeacherPatch t tpc).department = t.department) ∧
    (applyTeacherPatch t tpc).id = t.id ∧
    (applyTeacherPatch t tpc).createdAt = t.createdAt ∧
    (spc.name = some v → (applyStudentPatch s spc).name = v) ∧
    (spc.name = none → (applyStudentPatch s spc).name = s.name) ∧
    (spc.email = some v → (applyStudentPatch s spc).email = v) ∧
    (spc.email = none → (applyStudentPatch s spc).email = s.email) ∧
    (applyStudentPatch s spc).id = s.id ∧
    (applyStudentPatch s spc).createdAt = s.createdAt := by
  refine ⟨?_, ?_, ?_, ?_, ?_, ?_, ?_, ?_, ?_, ?_, ?_, ?_, ?_, ?_, ?_, ?_, ?_,
    ?_, ?_, ?_, ?_, ?_, ?_, ?_, ?_, ?_⟩
  · intro hf
    simp [updateCourse, SchoolDb.run_ok db _ h, hf, catch500M, Bind.bind,
      Except.bind, Pure.pure, Except.pure]
  · intro hf
    simp [updateTeacher, SchoolDb.run_ok db _ h, hf, catch500M, Bind.bind,
      Except.bind, Pure.pure, Except.pure]
  · intro hf
    simp [updateStudent, SchoolDb.run_ok db _ h, hf, catch500M, Bind.bind,
      Except.bind, Pure.pure, Except.pure]
  · intro hf
    simp [updateCourse, SchoolDb.run_ok db _ h, hf, catch500M, Bind.bind,
      Except.bind, Pure.pure, Except.pure]
  · intro hf
    simp [updateTeacher, SchoolDb.run_ok db _ h, hf, catch500M, Bind.bind,
      Except.bind, Pure.pure, Except.pure]
  · intro hf
    simp [updateStudent, SchoolDb.run_ok db _ h, hf, catch500M, Bind.bind,
      Except.bind, Pure.pure, Except.pure]
  all_goals intros
  all_goals simp [applyCoursePatch, applyTeacherPatch, applyStudentPatch, *]

/-- Closed instance of `update_partial_merge`: updating a missing teacher
id gives 404 and leaves the store unchanged; updating teacher 1 with only
a new name overwrites the name, keeps the department, and returns 200
with the updated record. -/
theorem update_partial_merge_witness :
    updateTeacher dbA 99 { name := some ("N"), department := none } =
      ({ status := 404, body := .obj [("message", .str ("Not found"))] }, dbA) ∧
    updateTeacher dbA 1 { name := some ("N"), department := none } =
      ({ status := 200,
         body := teacherToJson dbA []
           (applyTeacherPatch teacher1 { name := some ("N"), department := none }) },
       { dbA with teachers :=
           dbA.teachers.map (fun r =>
             if r.id == 1 then
               applyTeacherPatch teacher1 { name := some ("N"), department := none }
             else r) }) ∧
    (applyTeacherPatch teacher1 { name := some ("N"), department := none }).name =
      ("N") ∧
    (applyTeacherPatch teacher1
      { name := some ("N"), department := none }).department =
      teacher1.department := by
  have h99 := update_partial_merge dbA 99
    { title := none, description := none, TeacherId := none }
    { name := some ("N"), department := none }
    { name := none, email := none } course1 teacher1 student1 ("N") 0 rfl
  have h1 := update_partial_merge dbA 1
    { title := none, description := none, TeacherId := none }
    { name := some ("N"), department := none }
    { name := none, email := none } course1 teacher1 student1 ("N") 0 rfl
  obtain ⟨_, t404, _, _, t200, _, _, _, _, _, _, _, _, _, a15, _, _, a18, _⟩ := h1
  exact ⟨h99.2.1 (by decide), t200 (by decide), a15 rfl, a18 rfl⟩

theorem jsCeilDiv_spec (t : Nat) (l : Int) (hl : 1 ≤ l) :
    0 ≤ jsCeilDiv t l ∧
    t ≤ (jsCeilDiv t l).toNat * l.toNat ∧
    (∀ k : Nat, t ≤ k * l.toNat → (jsCeilDiv t l).toNat ≤ k) ∧
    (t = 0 → jsCeilDiv t l = 0) := by
  have hl0 : 0 < l := hl
  have hL : 0 < l.toNat := by omega
  unfold jsCeilDiv
  rw [if_pos hl0]
  refine ⟨by positivity, ?_, ?_, ?_⟩
  · simp only [Int.toNat_ofNat]
    by_contra hlt
    push_neg at hlt
    set d := (t + l.toNat - 1) / l.toNat with hd
    set m := d * l.toNat with hm
    have h2 : (d + 1) * l.toNat ≤ t + l.toNat - 1 := by
      have hstep : m + l.toNat ≤ t + l.toNat - 1 := by omega
      calc (d + 1) * l.toNat = m + l.toNat := by rw [hm]; ring
      _ ≤ t + l.toNat - 1 := hstep
    have h3 : d + 1 ≤ (t + l.toNat - 1) / l.toNat :=
      (Nat.le_div_iff_mul_le hL).2 h2
    omega
  · intro k hk
    simp only [Int.toNat_ofNat]
    rw [Nat.div_le_iff_le_mul_add_pred hL]
    have hkk : t ≤ l.toNat * k := by rw [Nat.mul_comm]; exact hk
    omega
  · intro ht
    subst ht
    have hz : (0 + l.toNat - 1) / l.toNat = 0 := Nat.div_eq_of_lt (by omega)
    rw [hz]
    rfl

theorem ormSorted_perm (created : α → Nat) (sort : String) (rows : List α) :
    (ormSorted created sort rows).Perm rows := by
  unfold ormSorted
  split
  · exact List.perm_insertionSort _ _
  · exact List.perm_insertionSort _ _

theorem ormSorted_sorted (created : α → Nat) (sort : String) (rows : List α) :
    sortedByCreated created sort (ormSorted created sort rows) := by
  unfold ormSorted sortedByCreated
  haveI i1 : IsTotal α (fun a b => created a ≤ created b) :=
    ⟨fun a b => Nat.le_total _ _⟩
  haveI i2 : IsTrans α (fun a b => created a ≤ created b) :=
    ⟨fun a b c hab hbc => Nat.le_trans hab hbc⟩
  haveI i3 : IsTotal α (fun a b => created b ≤ created a) :=
    ⟨fun a b => (Nat.le_total (created b) (created a))⟩
  haveI i4 : IsTrans α (fun a b => created b ≤ created a) :=
    ⟨fun a b c hab hbc => Nat.le_trans hbc hab⟩
  split
  · exact List.sorted_insertionSort _ _
  · exact List.sorted_insertionSort _ _

theorem ormFindAll_length_le (created : α → Nat) (sort : String)
    (limit offset : Int) (rows : List α) :
    (ormFindAll created sort limit offset rows).length ≤ limit.toNat := by
  unfold ormFindAll
  simp [List.length_take]

theorem ormFindAll_getElem (created : α → Nat) (sort : String)
    (limit offset : Int) (rows : List α) (k : Nat)
    (hk : k < (ormFindAll created sort limit offset rows).length) :
    (ormFindAll created sort limit offset rows)[k]? =
      (ormSorted created sort rows)[offset.toNat + k]? := by
  have hk2 : k < limit.toNat :=
    lt_of_lt_of_le hk (ormFindAll_length_le created sort limit offset rows)
  unfold ormFindAll
  rw [List.getElem?_take]
  simp [hk2, List.getElem?_drop]

theorem getAllCourses_dataArr (db : SchoolDb) (q : ListQuery) (h : db.fail = none) :
    (getAllCourses db q).dataArr =
      some ((ormFindAll Course.createdAt (usedSort q.sort) (usedLimit q.limit)
          ((usedPage q.page - 1) * usedLimit q.limit) db.courses).map
        (courseToJson db (courseIncludes q.populate))) := by
  rw [getAllCourses_eq db q h]
  rfl

theorem getAllTeachers_dataArr (db : SchoolDb) (q : ListQuery) (h : db.fail = none) :
    (getAllTeachers db q).dataArr =
      some ((ormFindAll Teacher.createdAt (usedSort q.sort) (usedLimit q.limit)
          ((usedPage q.page - 1) * usedLimit q.limit) db.teachers).map
        (teacherToJson db (teacherIncludes q.populate))) := by
  rw [getAllTeachers_eq db q h]
  rfl

theorem getAllStudents_dataArr (db : SchoolDb) (q : ListQuery) (h : db.fail = none) :
    (getAllStudents db q).dataArr =
      some ((ormFindAll Student.createdAt (usedSort q.sort) (usedLimit q.limit)
          ((usedPage q.page - 1) * usedLimit q.limit) db.students).map
        (studentToJson db (studentIncludes q.populate))) := by
  rw [getAllStudents_eq db q h]
  rfl

/-- C3: for a list request with effective page ≥ 1 and limit ≥ 1, the
envelope's data is exactly the serialized window of the table sorted by
creation timestamp in the requested direction, skipping
offset = (page-1)·limit records: at most limit records are returned, the
k-th one is the record at index offset+k of the sorted table, and the
sorted table is a permutation of the full table ordered by the
requested direction. -/
theorem list_pagination_window (db : SchoolDb) (q : ListQuery) (k : Nat)
    (h : db.fail = none)
    (hpage : 1 ≤ usedPage q.page) (hlim : 1 ≤ usedLimit q.limit) :
    (getAllCourses db q).dataArr =
      some ((ormFindAll Course.createdAt (usedSort q.sort) (usedLimit q.limit)
        ((usedPage q.page - 1) * usedLimit q.limit) db.courses).map
        (courseToJson db (courseIncludes q.populate))) ∧
    ((getAllCourses db q).dataArr.getD []).length ≤ (usedLimit q.limit).toNat ∧
    (ormFindAll Course.createdAt (usedSort q.sort) (usedLimit q.limit)
        ((usedPage q.page - 1) * usedLimit q.limit) db.courses).length ≤ (usedLimit q.limit).toNat ∧
    (k < (ormFindAll Course.createdAt (usedSort q.sort) (usedLimit q.limit)
        ((usedPage q.page - 1) * usedLimit q.limit) db.courses).length →
      (ormFindAll Course.createdAt (usedSort q.sort) (usedLimit q.limit)
        ((usedPage q.page - 1) * usedLimit q.limit) db.courses)[k]? =
        (ormSorted Course.createdAt (usedSort q.sort) db.courses)[((usedPage q.page - 1) * usedLimit q.limit).toNat + k]?) ∧
    (ormSorted Course.createdAt (usedSort q.sort) db.courses).Perm db.courses ∧
    sortedByCreated Course.createdAt (usedSort q.sort)
      (ormSorted Course.createdAt (usedSort q.sort) db.courses) ∧
    (getAllTeachers db q).dataArr =
      some ((ormFindAll Teacher.createdAt (usedSort q.sort) (usedLimit q.limit)
        ((usedPage q.page - 1) * usedLimit q.limit) db.teachers).map
        (teacherToJson db (teacherIncludes q.populate))) ∧
    ((getAllTeachers db q).dataArr.getD []).length ≤ (usedLimit q.limit).toNat ∧
    (ormFindAll Teacher.createdAt (usedSort q.sort) (usedLimit q.limit)
        ((usedPage q.page - 1) * usedLimit q.limit) db.teachers).length ≤ (usedLimit q.limit).toNat ∧
    (k < (ormFindAll Teacher.createdAt (usedSort q.sort) (usedLimit q.limit)
        ((usedPage q.page - 1) * usedLimit q.limit) db.teachers).length →
      (ormFindAll Teacher.createdAt (usedSort q.sort) (usedLimit q.limit)
        ((usedPage q.page - 1) * usedLimit q.limit) db.teachers)[k]? =
        (ormSorted Teacher.createdAt (usedSort q.sort) db.teachers)[((usedPage q.page - 1) * usedLimit q.limit).toNat + k]?) ∧
    (ormSorted Teacher.createdAt (usedSort q.sort) db.teachers).Perm db.teachers ∧
    sortedByCreated Teacher.createdAt (usedSort q.sort)
      (ormSorted Teacher.createdAt (usedSort q.sort) db.teachers) ∧
    (getAllStudents db q).dataArr =
      some ((ormFindAll Student.createdAt (usedSort q.sort) (usedLimit q.limit)
        ((usedPage q.page - 1) * usedLimit q.limit) db.students).map
        (studentToJson db (studentIncludes q.populate))) ∧
    ((getAllStudents db q).dataArr.getD []).length ≤ (usedLimit q.limit).toNat ∧
    (ormFindAll Student.createdAt (usedSort q.sort) (usedLimit q.limit)
        ((usedPage q.page - 1) * usedLimit q.limit) db.students).length ≤ (usedLimit q.limit).toNat ∧
    (k < (ormFindAll Student.createdAt (usedSort q.sort) (usedLimit q.limit)
        ((usedPage q.page - 1) * usedLimit q.limit) db.students).length →
      (ormFindAll Student.createdAt (usedSort q.sort) (usedLimit q.limit)
        ((usedPage q.page - 1) * usedLimit q.limit) db.students)[k]? =
        (ormSorted Student.createdAt (usedSort q.sort) db.students)[((usedPage q.page - 1) * usedLimit q.limit).toNat + k]?) ∧
    (ormSorted Student.createdAt (usedSort q.sort) db.students).Perm db.students ∧
    sortedByCreated Student.createdAt (usedSort q.sort)
      (ormSorted Student.createdAt (usedSort q.sort) db.students) := by
  refine ⟨?_, ?_, ?_, ?_, ?_, ?_, ?_, ?_, ?_, ?_, ?_, ?_, ?_, ?_, ?_, ?_, ?_, ?_⟩
  · exact getAllCourses_dataArr db q h
  · rw [getAllCourses_dataArr db q h]
    simpa using ormFindAll_length_le Course.createdAt (usedSort q.sort)
      (usedLimit q.limit) ((usedPage q.page - 1) * usedLimit q.limit) db.courses
  · exact ormFindAll_length_le Course.createdAt (usedSort q.sort)
      (usedLimit q.limit) ((usedPage q.page - 1) * usedLimit q.limit) db.courses
  · intro hk
    exact ormFindAll_getElem Course.createdAt (usedSort q.sort)
      (usedLimit q.limit) ((usedPage q.page - 1) * usedLimit q.limit) db.courses k hk
  · exact ormSorted_perm Course.createdAt (usedSort q.sort) db.courses
  · exact ormSorted_sorted Course.createdAt (usedSort q.sort) db.courses
  · exact getAllTeachers_dataArr db q h
  · rw [getAllTeachers_dataArr db q h]
    simpa using ormFindAll_length_le Teacher.createdAt (usedSort q.sort)
      (usedLimit q.limit) ((usedPage q.page - 1) * usedLimit q.limit) db.teachers
  · exact ormFindAll_length_le Teacher.createdAt (usedSort q.sort)
      (usedLimit q.limit) ((usedPage q.page - 1) * usedLimit q.limit) db.teachers
  · intro hk
    exact ormFindAll_getElem Teacher.createdAt (usedSort q.sort)
      (usedLimit q.limit) ((usedPage q.page - 1) * usedLimit q.limit) db.teachers k hk
  · exact ormSorted_perm Teacher.createdAt (usedSort q.sort) db.teachers
  · exact ormSorted_sorted Teacher.createdAt (usedSort q.sort) db.teachers
  · exact getAllStudents_dataArr db q h
  · rw [getAllStudents_dataArr db q h]
    simpa using ormFindAll_length_le Student.createdAt (usedSort q.sort)
      (usedLimit q.limit) ((usedPage q.page - 1) * usedLimit q.limit) db.students
  · exact ormFindAll_length_le Student.createdAt (usedSort q.sort)
      (usedLimit q.limit) ((usedPage q.page - 1) * usedLimit q.limit) db.students
  · intro hk
    exact ormFindAll_getElem Student.createdAt (usedSort q.sort)
      (usedLimit q.limit) ((usedPage q.page - 1) * usedLimit q.limit) db.students k hk
  · exact ormSorted_perm Student.createdAt (usedSort q.sort) db.students
  · exact ormSorted_sorted Student.createdAt (usedSort q.sort) db.students

/-- Closed instance of `list_pagination_window` at page=2, limit=2,
sort=asc over the three-teacher database. -/
theorem list_pagination_window_witness :
    ((getAllTeachers dbA
      { page := some ("2"), limit := some ("2"), sort := some ("asc"),
        populate := none }).dataArr.getD []).length ≤ 2 ∧
    (ormSorted Teacher.createdAt (usedSort (some ("asc"))) dbA.teachers).Perm
      dbA.teachers := by
  have h := list_pagination_window dbA
    { page := some ("2"), limit := some ("2"), sort := some ("asc"),
      populate := none }
    0 rfl (by decide) (by decide)
  exact ⟨h.2.2.2.2.2.2.2.1, h.2.2.2.2.2.2.2.2.2.2.1⟩

/-- C4: for effective limit ≥ 1, each list envelope's meta.totalPages is
the reported ceiling of totalItems/limit — it is nonnegative, totalPages·limit
covers totalItems, and it is the least such count — and when the total
unfiltered count is 0 the reported totalPages is 0 and the data array is
empty. -/
theorem list_total_pages (db : SchoolDb) (q : ListQuery) (k : Nat)
    (h : db.fail = none) (hlim : 1 ≤ usedLimit q.limit) :
    (getAllCourses db q).metaVal ("totalPages") = some (.num (jsCeilDiv db.courses.length (usedLimit q.limit))) ∧
    (getAllCourses db q).metaVal ("totalItems") =
      some (.num (db.courses.length : Int)) ∧
    db.courses.length ≤ (jsCeilDiv db.courses.length (usedLimit q.limit)).toNat * (usedLimit q.limit).toNat ∧
    (db.courses.length ≤ k * (usedLimit q.limit).toNat →
      (jsCeilDiv db.courses.length (usedLimit q.limit)).toNat ≤ k) ∧
    0 ≤ jsCeilDiv db.courses.length (usedLimit q.limit) ∧
    (db.courses.length = 0 →
      jsCeilDiv db.courses.length (usedLimit q.limit) = 0 ∧ (getAllCourses db q).dataArr = some []) ∧
    (getAllTeachers db q).metaVal ("totalPages") = some (.num (jsCeilDiv db.teachers.length (usedLimit q.limit))) ∧
    (getAllTeachers db q).metaVal ("totalItems") =
      some (.num (db.teachers.length : Int)) ∧
    db.teachers.length ≤ (jsCeilDiv db.teachers.length (usedLimit q.limit)).toNat * (usedLimit q.limit).toNat ∧
    (db.teachers.length ≤ k * (usedLimit q.limit).toNat →
      (jsCeilDiv db.teachers.length (usedLimit q.limit)).toNat ≤ k) ∧
    0 ≤ jsCeilDiv db.teachers.length (usedLimit q.limit) ∧
    (db.teachers.length = 0 →
      jsCeilDiv db.teachers.length (usedLimit q.limit) = 0 ∧ (getAllTeachers db q).dataArr = some []) ∧
    (getAllStudents db q).metaVal ("totalPages") = some (.num (jsCeilDiv db.students.length (usedLimit q.limit))) ∧
    (getAllStudents db q).metaVal ("totalItems") =
      some (.num (db.students.length : Int)) ∧
    db.students.length ≤ (jsCeilDiv db.students.length (usedLimit q.limit)).toNat * (usedLimit q.limit).toNat ∧
    (db.students.length ≤ k * (usedLimit q.limit).toNat →
      (jsCeilDiv db.students.length (usedLimit q.limit)).toNat ≤ k) ∧
    0 ≤ jsCeilDiv db.students.length (usedLimit q.limit) ∧
    (db.students.length = 0 →
      jsCeilDiv db.students.length (usedLimit q.limit) = 0 ∧ (getAllStudents db q).dataArr = some []) := by
  refine ⟨?_, ?_, ?_, ?_, ?_, ?_, ?_, ?_, ?_, ?_, ?_, ?_, ?_, ?_, ?_, ?_, ?_, ?_⟩
  · rw [getAllCourses_eq db q h]
    rfl
  · rw [getAllCourses_eq db q h]
    rfl
  · exact (jsCeilDiv_spec db.courses.length (usedLimit q.limit) hlim).2.1
  · intro hk
    exact (jsCeilDiv_spec db.courses.length (usedLimit q.limit) hlim).2.2.1 k hk
  · exact (jsCeilDiv_spec db.courses.length (usedLimit q.limit) hlim).1
  · intro h0
    refine ⟨(jsCeilDiv_spec db.courses.length (usedLimit q.limit) hlim).2.2.2 h0, ?_⟩
    rw [getAllCourses_dataArr db q h]
    have hnil : db.courses = [] := List.length_eq_zero.mp h0
    rw [hnil]
    unfold ormFindAll ormSorted
    split <;> simp
  · rw [getAllTeachers_eq db q h]
    rfl
  · rw [getAllTeachers_eq db q h]
    rfl
  · exact (jsCeilDiv_spec db.teachers.length (usedLimit q.limit) hlim).2.1
  · intro hk
    exact (jsCeilDiv_spec db.teachers.length (usedLimit q.limit) hlim).2.2.1 k hk
  · exact (jsCeilDiv_spec db.teachers.length (usedLimit q.limit) hlim).1
  · intro h0
    refine ⟨(jsCeilDiv_spec db.teachers.length (usedLimit q.limit) hlim).2.2.2 h0, ?_⟩
    rw [getAllTeachers_dataArr db q h]
    have hnil : db.teachers = [] := List.length_eq_zero.mp h0
    rw [hnil]
    unfold ormFindAll ormSorted
    split <;> simp
  · rw [getAllStudents_eq db q h]
    rfl
  · rw [getAllStudents_eq db q h]
    rfl
  · exact (jsCeilDiv_spec db.students.length (usedLimit q.limit) hlim).2.1
  · intro hk
    exact (jsCeilDiv_spec db.students.length (usedLimit q.limit) hlim).2.2.1 k hk
  · exact (jsCeilDiv_spec db.students.length (usedLimit q.limit) hlim).1
  · intro h0
    refine ⟨(jsCeilDiv_spec db.students.length (usedLimit q.limit) hlim).2.2.2 h0, ?_⟩
    rw [getAllStudents_dataArr db q h]
    have hnil : db.students = [] := List.length_eq_zero.mp h0
    rw [hnil]
    unfold ormFindAll ormSorted
    split <;> simp

/-- Closed instance of `list_total_pages`: three teachers at limit=2 give
totalPages=2; an empty student table gives an empty data array. -/
theorem list_total_pages_witness :
    (getAllTeachers dbA
      { page := none, limit := some ("2"), sort := none, populate := none
        }).metaVal ("totalPages") = some (.num 2) ∧
    (getAllStudents dbEmpty
      { page := none, limit := some ("2"), sort := none, populate := none
        }).dataArr = some [] := by
  have h1 := list_total_pages dbA
    { page := none, limit := some ("2"), sort := none, populate := none }
    0 rfl (by decide)
  have h2 := list_total_pages dbEmpty
    { page := none, limit := some ("2"), sort := none, populate := none }
    0 rfl (by decide)
  exact ⟨h1.2.2.2.2.2.2.1, (h2.2.2.2.2.2.2.2.2.2.2.2.2.2.2.2.2.2 rfl).2⟩

end SchoolApi
